import Mathlib

/-
Shallow embedding of the learning-rule subsystem of the nengo fork under
study (src/nengo/learning_rules.py and src/nengo/builder/learning_rules.py).
Scalars are modelled as rationals, numpy vectors as functions out of `Fin n`,
and matrices as functions `Fin m → Fin n → ℚ`; `np.outer u v` becomes
`fun i j => u i * v j`, and the per-row broadcast `x[:, None] * M` becomes
`fun i j => x i * M i j`.
-/

/-! ### Per-step update kernels (builder/learning_rules.py) -/

/-- Embedding of `SimBCM.make_step` (builder/learning_rules.py lines 36-49):
with `alpha = learning_rate * dt`, the kernel writes
`delta[...] = np.outer(alpha * post_filtered * (post_filtered - theta), pre_filtered)`. -/
def SimBCM.step (learning_rate dt theta : ℚ) {m n : ℕ}
    (pre_filtered : Fin n → ℚ) (post_filtered : Fin m → ℚ) : Fin m → Fin n → ℚ :=
  fun i j =>
    (learning_rate * dt) * post_filtered i * (post_filtered i - theta) * pre_filtered j

/-- Embedding of `SimInhVSG.make_step` (builder/learning_rules.py lines 72-83):
with `alpha = learning_rate * dt`, the kernel writes
`delta[...] = -1.0 * np.outer(alpha * learning_signal * (post_filtered - theta), pre_filtered)`,
the leading `-1.0` enforcing inhibition.  The learning signal is a length-1
signal, modelled as a scalar. -/
def SimInhVSG.step (learning_rate dt theta learning_signal : ℚ) {m n : ℕ}
    (pre_filtered : Fin n → ℚ) (post_filtered : Fin m → ℚ) : Fin m → Fin n → ℚ :=
  fun i j =>
    -1 * ((learning_rate * dt) * learning_signal * (post_filtered i - theta)) * pre_filtered j

/-- Embedding of `SimOja.make_step` (builder/learning_rules.py lines 107-123):
with `alpha = learning_rate * dt`, the kernel first computes
`post_squared = alpha * post_filtered * post_filtered` and writes the
forgetting term `delta[...] = -beta * weights * post_squared[:, None]`, then
adds the Hebbian term `delta[...] += np.outer(alpha * post_filtered, pre_filtered)`.
The value below is the content of `delta` after both statements. -/
def SimOja.step (learning_rate dt beta : ℚ) {m n : ℕ}
    (weights : Fin m → Fin n → ℚ)
    (pre_filtered : Fin n → ℚ) (post_filtered : Fin m → ℚ) : Fin m → Fin n → ℚ :=
  fun i j =>
    -beta * weights i j * ((learning_rate * dt) * post_filtered i * post_filtered i)
      + (learning_rate * dt) * post_filtered i * pre_filtered j

/-- Restatement of the Oja update formula in the spec's words (spec section 4.5
and claim C1): forgetting term `-beta * weights * (learning_rate*dt*post_filtered)^2`
broadcast per row, plus `outer(learning_rate*dt*post_filtered, pre_filtered)`.
Declared only to be compared with `SimOja.step`, which is embedded from the source. -/
def ojaSpecDelta (learning_rate dt beta : ℚ) {m n : ℕ}
    (weights : Fin m → Fin n → ℚ)
    (pre_filtered : Fin n → ℚ) (post_filtered : Fin m → ℚ) : Fin m → Fin n → ℚ :=
  fun i j =>
    -beta * weights i j * ((learning_rate * dt) * post_filtered i) ^ 2
      + (learning_rate * dt) * post_filtered i * pre_filtered j

/-- Embedding of `SimVoja.make_step` (builder/learning_rules.py lines 166-179):
with `alpha = learning_rate * dt`, the kernel writes
`delta[...] = alpha * learning_signal * (scale[:, None] * np.outer(post_filtered, pre_decoded) - post_filtered[:, None] * scaled_encoders)`. -/
def SimVoja.step (learning_rate dt : ℚ) {m d : ℕ}
    (pre_decoded : Fin d → ℚ) (post_filtered : Fin m → ℚ)
    (scaled_encoders : Fin m → Fin d → ℚ) (scale : Fin m → ℚ)
    (learning_signal : ℚ) : Fin m → Fin d → ℚ :=
  fun i j =>
    (learning_rate * dt) * learning_signal *
      (scale i * (post_filtered i * pre_decoded j) - post_filtered i * scaled_encoders i j)

/-- Effective value of the Voja gating signal seen by `SimVoja` each step.
`build_voja` (builder/learning_rules.py lines 323-326) allocates the signal
and adds `Reset(learning, value=1.0)`, so the signal holds the neutral
default 1.0 at the start of every step; an optional incoming connection
attached at `model.sig[rule]['in']` then adds its driven value into it
(spec section 3: the learning input is initialized to a neutral default 1.0
every step before any connection can add to it). -/
def Voja.learning_input (driven : ℚ) : ℚ := 1 + driven

/-! ### Claims C1, C6, C7, C8 about the kernels -/

/-- Claim C1, as stated, is false: the source's forgetting term multiplies the
weights by `alpha * post_filtered ^ 2` (with `alpha = learning_rate * dt`),
not by `(alpha * post_filtered) ^ 2` as the spec's formula says.  At
`learning_rate = 2`, `dt = 1`, `beta = 1`, `weights = 1`, `post_filtered = 1`
and `pre_filtered = 0` (sizes 1 x 1) the code yields `-2` while the spec
formula yields `-4`. -/
theorem claim_C1_counterexample :
    (SimOja.step 2 1 1 (fun _ _ => 1) (fun _ => 0) (fun _ => 1) : Fin 1 → Fin 1 → ℚ)
      ≠ ojaSpecDelta 2 1 1 (fun _ _ => 1) (fun _ => 0) (fun _ => 1) := by
  intro h
  have h0 := congrFun (congrFun h 0) 0
  norm_num [SimOja.step, ojaSpecDelta] at h0

/-- Claim C1 amended: the per-step Oja update computes
`delta = -beta * weights * (learning_rate * dt * post_filtered ^ 2)` broadcast
per row (the square applies to `post_filtered` only, the factor
`learning_rate * dt` enters linearly), plus
`outer(learning_rate * dt * post_filtered, pre_filtered)`. -/
theorem claim_C1_amended_thm (learning_rate dt beta : ℚ) {m n : ℕ}
    (weights : Fin m → Fin n → ℚ)
    (pre_filtered : Fin n → ℚ) (post_filtered : Fin m → ℚ) :
    SimOja.step learning_rate dt beta weights pre_filtered post_filtered
      = fun i j =>
          -beta * weights i j * ((learning_rate * dt) * post_filtered i ^ 2)
            + (learning_rate * dt) * post_filtered i * pre_filtered j := by
  funext i j
  simp only [SimOja.step]
  ring

/-- Claim C6: with the gating input held at exactly -1, the effective learning
signal seen by `SimVoja` is `1 + (-1) = 0` (the signal is reset to the neutral
default 1.0 each step before the incoming connection adds -1), so the Voja
delta is the zero matrix for every `post_filtered`, `pre_decoded`,
`scaled_encoders` and `scale`. -/
theorem claim_C6_thm (learning_rate dt : ℚ) {m d : ℕ}
    (pre_decoded : Fin d → ℚ) (post_filtered : Fin m → ℚ)
    (scaled_encoders : Fin m → Fin d → ℚ) (scale : Fin m → ℚ) :
    SimVoja.step learning_rate dt pre_decoded post_filtered scaled_encoders scale
        (Voja.learning_input (-1))
      = fun _ _ => 0 := by
  funext i j
  norm_num [SimVoja.step, Voja.learning_input]

/-- Claim C7: for the BCM kernel with a fixed scalar theta, whenever
`post_filtered` equals `theta` elementwise, the written delta is the zero
matrix, for every `pre_filtered`. -/
theorem claim_C7_thm (learning_rate dt theta : ℚ) {m n : ℕ}
    (pre_filtered : Fin n → ℚ) (post_filtered : Fin m → ℚ)
    (h : ∀ i, post_filtered i = theta) :
    SimBCM.step learning_rate dt theta pre_filtered post_filtered = fun _ _ => 0 := by
  funext i j
  simp [SimBCM.step, h i]

/-- Witness for claim C7 at concrete input: `theta = 3`, `post_filtered`
constantly 3, `pre_filtered` constantly 5, sizes 1 x 1. -/
theorem claim_C7_witness :
    (∀ i : Fin 1, (fun _ : Fin 1 => (3 : ℚ)) i = 3) ∧
    (SimBCM.step 2 1 3 (fun _ => 5) (fun _ => 3) : Fin 1 → Fin 1 → ℚ) = fun _ _ => 0 :=
  ⟨fun _ => rfl, claim_C7_thm 2 1 3 (fun _ => 5) (fun _ => 3) (fun _ => rfl)⟩

/-- Claim C8: the inhibitory VSG kernel computes
`delta = -learning_rate*dt * outer(learning_signal * (post_filtered - theta), pre_filtered)`,
the entire update negated relative to the Hebbian form, for every
`pre_filtered`, `post_filtered` and `learning_signal`. -/
theorem claim_C8_thm (learning_rate dt theta learning_signal : ℚ) {m n : ℕ}
    (pre_filtered : Fin n → ℚ) (post_filtered : Fin m → ℚ) :
    SimInhVSG.step learning_rate dt theta learning_signal pre_filtered post_filtered
      = fun i j =>
          -(learning_rate * dt) * (learning_signal * (post_filtered i - theta))
            * pre_filtered j := by
  funext i j
  simp only [SimInhVSG.step]
  ring

/-! ### Descriptor construction: clip policy coercion (learning_rules.py) -/

/-- Value passed as the `clip_type` argument of `LearningRuleType.__init__`:
either Python `None` or a string. -/
inductive ClipPolicyInput where
  | nonePolicy
  | str (s : String)
deriving DecidableEq

/-- Embedding of the clip-policy coercion in `LearningRuleType.__init__`
(learning_rules.py lines 84-93).  `None` assigns `self.clip_type = 0`,
`'clip<0'` assigns 1, `'clip>0'` assigns 2; any other string only emits a
warning ("Reverting to no clipping.") and falls through WITHOUT assigning
`self.clip_type`, so the attribute stays unset — modelled as `Option.none`,
a later attribute read raising `AttributeError` rather than seeing 0. -/
def LearningRuleType.clip_type_attr : ClipPolicyInput → Option ℕ
  | ClipPolicyInput.nonePolicy => some 0
  | ClipPolicyInput.str s =>
      if s = "clip<0" then some 1
      else if s = "clip>0" then some 2
      else Option.none

/-- Claim C4 evaluated at the failing input: constructing a descriptor with the
unrecognized clip string "clamp" leaves the clip attribute unset
(`Option.none`), unlike the `None` input which sets it to 0 (no clipping);
the descriptor therefore does not behave as if no clipping were requested
when the builder later reads the attribute. -/
theorem claim_C4_thm :
    LearningRuleType.clip_type_attr (ClipPolicyInput.str "clamp") = Option.none ∧
    LearningRuleType.clip_type_attr ClipPolicyInput.nonePolicy = some 0 ∧
    LearningRuleType.clip_type_attr (ClipPolicyInput.str "clamp")
      ≠ LearningRuleType.clip_type_attr ClipPolicyInput.nonePolicy := by
  refine ⟨by decide, rfl, by decide⟩

/-! ### build_learning_rule: delta allocation (builder/learning_rules.py lines 192-230) -/

/-- The `modifies` attribute of a learning-rule descriptor, as dispatched on by
`build_learning_rule`. -/
inductive Modifies where
  | encoders
  | decoders
  | weights
  | unknown (s : String)
deriving DecidableEq

/-- Build-time data about the connection a rule is attached to: whether it is
decoded, and the dimensions of the pre and post populations.  `size_out` is
the dimensionality of the connection's decoded output space. -/
structure BuildConn where
  is_decoded : Bool
  pre_n_neurons : ℕ
  post_n_neurons : ℕ
  post_dimensions : ℕ
  size_out : ℕ
deriving DecidableEq

/-- Embedding of the dead check at builder/learning_rules.py lines 198-200: in
the encoders branch, when the connection is not decoded the source evaluates
`ValueError("The connection must be decoded in order to use encoder learning.")`
WITHOUT `raise`, so the exception object is constructed and immediately
discarded; this function returns the message that is constructed and dropped. -/
def encoder_check_message (conn : BuildConn) : Option String :=
  if conn.is_decoded = false then
    some "The connection must be decoded in order to use encoder learning."
  else Option.none

/-- Embedding of the delta-allocation part of `build_learning_rule`
(builder/learning_rules.py lines 196-220), returning the shape (rows, cols)
of the freshly allocated `Delta` signal, or the raised error.  For
`modifies = 'encoders'` the shape is `(post.n_neurons, post.dimensions)` (the
non-decoded check constructs but never raises, see `encoder_check_message`);
for `'decoders'` and `'weights'` it is `(post.n_neurons, pre.n_neurons)` when
the connection is not decoded and `(rule.size_in, pre.n_neurons)` when it is
(`size_in` being the rule's resolved error dimensionality); any other value
raises `ValueError("Unknown target ...")`. -/
def build_learning_rule_delta_shape (modifies : Modifies) (conn : BuildConn)
    (size_in : ℕ) : Except String (ℕ × ℕ) :=
  match modifies with
  | Modifies.encoders =>
      let _unraised := encoder_check_message conn
      Except.ok (conn.post_n_neurons, conn.post_dimensions)
  | Modifies.decoders =>
      if conn.is_decoded = false then Except.ok (conn.post_n_neurons, conn.pre_n_neurons)
      else Except.ok (size_in, conn.pre_n_neurons)
  | Modifies.weights =>
      if conn.is_decoded = false then Except.ok (conn.post_n_neurons, conn.pre_n_neurons)
      else Except.ok (size_in, conn.pre_n_neurons)
  | Modifies.unknown s => Except.error ("Unknown target " ++ s)

/-- Modelled from the spec: the shape of the target signal read by
`build_learning_rule` (`model.sig[post]['encoders']` and
`model.sig[conn]['weights']` are allocated by builder code outside src/).
Spec section 3: the encoder matrix is neurons x dimensions and the full weight
matrix is post-neurons x pre-neurons; for a decoded connection the weights
signal holds the decoders, the linear readout from the pre population's
neurons to the connection's represented output space, of shape
size_out x pre-neurons. -/
def target_shape (modifies : Modifies) (conn : BuildConn) : Option (ℕ × ℕ) :=
  match modifies with
  | Modifies.encoders => some (conn.post_n_neurons, conn.post_dimensions)
  | Modifies.decoders =>
      if conn.is_decoded = false then some (conn.post_n_neurons, conn.pre_n_neurons)
      else some (conn.size_out, conn.pre_n_neurons)
  | Modifies.weights =>
      if conn.is_decoded = false then some (conn.post_n_neurons, conn.pre_n_neurons)
      else some (conn.size_out, conn.pre_n_neurons)
  | Modifies.unknown _ => none

/-- Claim C2: for every descriptor whose delta allocation succeeds (every valid
`modifies`) and every legal pre/post combination — legality meaning the rule's
resolved error dimensionality equals the connection's decoded output
dimensionality — the allocated delta shape equals the target shape, so the
`assert delta.shape == target.shape` at builder/learning_rules.py line 220
never fails. -/
theorem claim_C2_thm (modifies : Modifies) (conn : BuildConn) (size_in : ℕ)
    (hlegal : size_in = conn.size_out) (shape : ℕ × ℕ)
    (hok : build_learning_rule_delta_shape modifies conn size_in = Except.ok shape) :
    target_shape modifies conn = some shape := by
  subst hlegal
  cases modifies <;> cases hd : conn.is_decoded <;>
    simp_all [build_learning_rule_delta_shape, target_shape]

/-- Witness for claim C2: `modifies = decoders` on a decoded connection with
`size_in = size_out = 3` and 4 pre neurons. -/
theorem claim_C2_witness :
    ((3 : ℕ) = BuildConn.size_out ⟨true, 4, 5, 3, 3⟩) ∧
    target_shape Modifies.decoders ⟨true, 4, 5, 3, 3⟩ = some (3, 4) :=
  ⟨rfl, claim_C2_thm Modifies.decoders ⟨true, 4, 5, 3, 3⟩ 3 rfl (3, 4) rfl⟩

/-- Claim C10: with `modifies = 'encoders'` on a connection that is not
decoded, `build_learning_rule` does not raise — the ValueError is constructed
and discarded (`encoder_check_message` is `some` there) and the delta is
allocated against the post ensemble's encoders shape
`(post.n_neurons, post.dimensions)`. -/
theorem claim_C10_thm (conn : BuildConn) (size_in : ℕ)
    (h : conn.is_decoded = false) :
    encoder_check_message conn
        = some "The connection must be decoded in order to use encoder learning." ∧
    build_learning_rule_delta_shape Modifies.encoders conn size_in
        = Except.ok (conn.post_n_neurons, conn.post_dimensions) := by
  constructor
  · simp [encoder_check_message, h]
  · rfl

/-- Witness for claim C10 at a concrete non-decoded connection. -/
theorem claim_C10_witness :
    BuildConn.is_decoded ⟨false, 4, 5, 3, 3⟩ = false ∧
    (encoder_check_message ⟨false, 4, 5, 3, 3⟩
        = some "The connection must be decoded in order to use encoder learning." ∧
      build_learning_rule_delta_shape Modifies.encoders ⟨false, 4, 5, 3, 3⟩ 2
        = Except.ok (5, 3)) :=
  ⟨rfl, claim_C10_thm ⟨false, 4, 5, 3, 3⟩ 2 rfl⟩

/-! ### build_pes: local-error selection and its error branch
(builder/learning_rules.py lines 423-437) -/

/-- Kind of the connection's `pre` object, as tested by the isinstance check
in `build_pes` (`Ensemble`, `Neurons`, or anything else such as a `Node`). -/
inductive PreObjKind where
  | ensembleObj
  | neuronsObj
  | nodeObj
deriving DecidableEq

/-- Which signal `build_pes` wires as the local error feeding the outer
product: the encoder-projected correction, or the correction directly. -/
inductive PesLocalError where
  | encoded
  | correction
deriving DecidableEq

/-- Embedding of the local-error selection in `build_pes`
(builder/learning_rules.py lines 423-437): when `not conn.is_decoded`, the
correction is projected through the post encoders (`encoded`); otherwise, when
`conn.pre_obj` is an `Ensemble` or `Neurons`, the correction itself is used;
otherwise `ValueError("'pre' object ... not suitable for PES learning")` is
raised. -/
def build_pes_local_error (is_decoded : Bool) (pre_obj : PreObjKind) :
    Except String PesLocalError :=
  if is_decoded = false then Except.ok PesLocalError.encoded
  else
    match pre_obj with
    | PreObjKind.ensembleObj => Except.ok PesLocalError.correction
    | PreObjKind.neuronsObj => Except.ok PesLocalError.correction
    | PreObjKind.nodeObj => Except.error "pre object not suitable for PES learning"

/-- Claim C3, as stated, is false: on a connection that is NOT decoded and
whose pre-object is not a neuron population (here a Node), `build_pes` does
not raise — it takes the `not conn.is_decoded` branch and wires the
encoder-projected correction, succeeding. -/
theorem claim_C3_counterexample :
    build_pes_local_error false PreObjKind.nodeObj = Except.ok PesLocalError.encoded := rfl

/-- Claim C3 amended: `build_pes` raises a fatal configuration error exactly
when the connection IS decoded and its pre-object is neither an `Ensemble` nor
a `Neurons` population; on a non-decoded connection it never raises,
whatever the pre-object is. -/
theorem claim_C3_amended_thm :
    (∀ p, (build_pes_local_error true p
            = Except.error "pre object not suitable for PES learning")
          ↔ p = PreObjKind.nodeObj) ∧
    (∀ p, build_pes_local_error false p = Except.ok PesLocalError.encoded) := by
  constructor
  · intro p
    cases p <;> simp [build_pes_local_error]
  · intro p
    cases p <;> rfl

/-! ### PES and VoltageRule delta integration
(builder/learning_rules.py lines 439-454 and 376-391) -/

/-- Embedding of the decay factor chosen in `build_pes`
(builder/learning_rules.py lines 441-449): 1.0 when `integral_tau` is None
(with `Reset(delta)` added), else
`(1.0 - dt/integral_tau) * dt/integral_tau` (with `PreserveValue(delta)`). -/
def pes_decay_factor (dt : ℚ) : Option ℚ → ℚ
  | Option.none => 1
  | some integral_tau => (1 - dt / integral_tau) * (dt / integral_tau)

/-- Embedding of the decay factor chosen in `build_voltagerule`
(builder/learning_rules.py lines 378-386), textually identical to the PES
one: 1.0 when `integral_tau` is None, else
`(1.0 - dt/integral_tau) * dt/integral_tau`. -/
def voltagerule_decay_factor (dt : ℚ) : Option ℚ → ℚ
  | Option.none => 1
  | some integral_tau => (1 - dt / integral_tau) * (dt / integral_tau)

/-- Modelled from the spec: the per-step evolution of the PES delta signal.
The `Reset`, `PreserveValue` and `ElementwiseInc` operator classes live in
nengo/builder/operator.py, outside src/; per spec sections 4.1 and 8, the
accumulate-with-decay write performs `delta = decay_factor * delta + increment`
after `Reset` has zeroed delta (integral_tau None) or `PreserveValue` has kept
the previous value (integral_tau set).  `increment` is the outer product
`local_error.column() * acts.row()` of builder/learning_rules.py line 452. -/
def pes_delta_step (dt : ℚ) (integral_tau : Option ℚ) {m n : ℕ}
    (prev increment : Fin m → Fin n → ℚ) : Fin m → Fin n → ℚ :=
  match integral_tau with
  | Option.none => fun i j => pes_decay_factor dt Option.none * 0 + increment i j
  | some tau => fun i j => pes_decay_factor dt (some tau) * prev i j + increment i j

/-- Modelled from the spec: the per-step evolution of the VoltageRule delta
signal, built by the code at builder/learning_rules.py lines 376-391, which is
textually identical to the PES code; the operator semantics are modelled as in
`pes_delta_step`. -/
def voltagerule_delta_step (dt : ℚ) (integral_tau : Option ℚ) {m n : ℕ}
    (prev increment : Fin m → Fin n → ℚ) : Fin m → Fin n → ℚ :=
  match integral_tau with
  | Option.none => fun i j => voltagerule_decay_factor dt Option.none * 0 + increment i j
  | some tau =>
      fun i j => voltagerule_decay_factor dt (some tau) * prev i j + increment i j

/-- Claim C5: for both the PES and the VoltageRule builders, with
`integral_tau = None` the delta written at step t is the increment alone and
does not depend on the previous delta (it is reset before the write); with
`integral_tau` set, `delta[t] = decay * delta[t-1] + increment[t]` where the
decay coefficient is `(1 - dt/integral_tau) * (dt/integral_tau)`. -/
theorem claim_C5_thm (dt tau : ℚ) {m n : ℕ}
    (prev prevOther increment : Fin m → Fin n → ℚ) :
    (pes_delta_step dt Option.none prev increment
        = pes_delta_step dt Option.none prevOther increment) ∧
    (pes_delta_step dt Option.none prev increment = increment) ∧
    (pes_delta_step dt (some tau) prev increment
        = fun i j => ((1 - dt / tau) * (dt / tau)) * prev i j + increment i j) ∧
    (voltagerule_delta_step dt Option.none prev increment
        = voltagerule_delta_step dt Option.none prevOther increment) ∧
    (voltagerule_delta_step dt Option.none prev increment = increment) ∧
    (voltagerule_delta_step dt (some tau) prev increment
        = fun i j => ((1 - dt / tau) * (dt / tau)) * prev i j + increment i j) := by
  refine ⟨rfl, ?_, rfl, rfl, ?_, rfl⟩ <;>
    · funext i j
      simp [pes_delta_step, voltagerule_delta_step, pes_decay_factor,
        voltagerule_decay_factor]

/-! ### Operator read/write signatures (builder/learning_rules.py) -/

/-- Signal-set declaration of an operator: which signals it sets, increments,
reads and updates.  Signals are identified by abstract ids. -/
structure OperatorSignature where
  sets : List ℕ
  incs : List ℕ
  reads : List ℕ
  updates : List ℕ
deriving DecidableEq

/-- Embedding of `SimBCM.__init__` (builder/learning_rules.py lines 24-30):
`sets = []`, `incs = []`, `reads = [pre_filtered, post_filtered]` when theta
is a plain float and `[pre_filtered, post_filtered, theta]` otherwise,
`updates = [delta]`. -/
def SimBCM.signature (pre_filtered post_filtered theta delta : ℕ)
    (theta_is_float : Bool) : OperatorSignature :=
  { sets := []
    incs := []
    reads :=
      if theta_is_float then [pre_filtered, post_filtered]
      else [pre_filtered, post_filtered, theta]
    updates := [delta] }

/-- Embedding of `SimInhVSG.__init__` (builder/learning_rules.py lines 63-66):
`sets = []`, `incs = []`, `reads = [pre_filtered, post_filtered, learning_signal]`,
`updates = [delta]`. -/
def SimInhVSG.signature (pre_filtered post_filtered learning_signal delta : ℕ) :
    OperatorSignature :=
  { sets := []
    incs := []
    reads := [pre_filtered, post_filtered, learning_signal]
    updates := [delta] }

/-- Embedding of `SimOja.__init__` (builder/learning_rules.py lines 98-101):
`sets = []`, `incs = []`, `reads = [pre_filtered, post_filtered, weights]`,
`updates = [delta]`. -/
def SimOja.signature (pre_filtered post_filtered weights delta : ℕ) :
    OperatorSignature :=
  { sets := []
    incs := []
    reads := [pre_filtered, post_filtered, weights]
    updates := [delta] }

/-- Embedding of `SimVoja.__init__` (builder/learning_rules.py lines 160-164):
`reads = [pre_decoded, post_filtered, scaled_encoders, learning_signal]`,
`updates = [delta]`, `sets = []`, `incs = []`. -/
def SimVoja.signature
    (pre_decoded post_filtered scaled_encoders learning_signal delta : ℕ) :
    OperatorSignature :=
  { sets := []
    incs := []
    reads := [pre_decoded, post_filtered, scaled_encoders, learning_signal]
    updates := [delta] }

/-- The single-writer discipline for one operator: its sets and incs are
empty, its updates contain exactly the private delta signal, and the target
signal appears in none of the three write sets. -/
def writesOnlyDelta (sig : OperatorSignature) (delta target : ℕ) : Prop :=
  sig.sets = [] ∧ sig.incs = [] ∧ sig.updates = [delta] ∧
  target ∉ sig.sets ∧ target ∉ sig.incs ∧ target ∉ sig.updates

/-- Claim C9: every rule-specific update operator (SimBCM, SimInhVSG, SimOja,
SimVoja) declares empty sets and incs and updates exactly its private delta
signal; the target matrix (distinct from the freshly allocated delta) is in no
write set of any of them — for SimOja and SimVoja the target is instantiated
as the very weights/scaled_encoders signal the operator reads, showing it
appears at most in reads. -/
theorem claim_C9_thm
    (pre_filtered post_filtered theta learning_signal pre_decoded delta target : ℕ)
    (theta_is_float : Bool) (h : target ≠ delta) :
    writesOnlyDelta
        (SimBCM.signature pre_filtered post_filtered theta delta theta_is_float)
        delta target ∧
    writesOnlyDelta
        (SimInhVSG.signature pre_filtered post_filtered learning_signal delta)
        delta target ∧
    writesOnlyDelta (SimOja.signature pre_filtered post_filtered target delta)
        delta target ∧
    writesOnlyDelta
        (SimVoja.signature pre_decoded post_filtered target learning_signal delta)
        delta target := by
  refine ⟨?_, ?_, ?_, ?_⟩ <;>
    simp [writesOnlyDelta, SimBCM.signature, SimInhVSG.signature, SimOja.signature,
      SimVoja.signature, h]

/-- Witness for claim C9 at concrete signal ids (target 9, delta 7). -/
theorem claim_C9_witness :
    (9 : ℕ) ≠ 7 ∧
    (writesOnlyDelta (SimBCM.signature 1 2 3 7 true) 7 9 ∧
      writesOnlyDelta (SimInhVSG.signature 1 2 4 7) 7 9 ∧
      writesOnlyDelta (SimOja.signature 1 2 9 7) 7 9 ∧
      writesOnlyDelta (SimVoja.signature 5 2 9 4 7) 7 9) :=
  ⟨by decide, claim_C9_thm 1 2 3 4 5 7 9 true (by decide)⟩
